import Mathlib

/-!
Shallow embedding of the `openclaw_kokoro_plugin` package
(`plugin.py` and `cli.py`) and proofs of its specified properties.

External collaborators (the torch hardware probes, the `KPipeline`
constructor and inference call, the `soundfile` WAV writer, base64 and
path resolution) are modelled as parameters of an `Env` structure or as
small explicit models noted in their doc comments.  Pipeline handles are
modelled as natural numbers drawn from a fresh-handle counter, and the
observable side effects (constructor invocations, successful
constructions, filesystem writes) are recorded in explicit logs so that
"at most once" and "no filesystem interaction" properties can be stated.
-/

namespace OpenClawKokoro

/-- The supported language table (`LANGUAGES` in `plugin.py`),
as an association list in source order. -/
def LANGUAGES : List (String × String) :=
  [("a", "American English"), ("b", "British English")]

/-- The supported language codes, in table order (Python iterates dict
keys in insertion order, so the error message joins them as a, b). -/
def supportedLangCodes : List String := LANGUAGES.map Prod.fst

/-- The conceptual error taxonomy of the plugin.  In the Python source
every error except `rawException` is raised as a `KokoroPluginError`
with a message; `rawException` models an exception from an external
library that propagates out of the plugin without being wrapped. -/
inductive KError where
  | invalidArgument (message : String)
  | unsupportedLanguage (code : String) (supported : List String)
  | emptyInput
  | pipelineInitFailed (cause : String)
  | synthesisFailed (cause : String)
  | noAudioProduced
  | missingOutputPath
  | rawException (cause : String)
deriving DecidableEq

/-- Whether the error is surfaced as the single `KokoroPluginError`
exception class of `plugin.py` (every taxonomy kind except an unwrapped
external exception). -/
def KError.isKokoroPluginError : KError → Bool
  | .invalidArgument _ => true
  | .unsupportedLanguage _ _ => true
  | .emptyInput => true
  | .pipelineInitFailed _ => true
  | .synthesisFailed _ => true
  | .noAudioProduced => true
  | .missingOutputPath => true
  | .rawException _ => false

/-- The message attached to each error, following the strings raised in
`plugin.py` (quote characters around interpolated values omitted). -/
def renderError : KError → String
  | .invalidArgument m => m
  | .unsupportedLanguage code sup =>
      "Unsupported lang_code " ++ code ++ ". Supported: " ++ String.intercalate ", " sup
  | .emptyInput => "Text is required."
  | .pipelineInitFailed cause => "Failed to initialize Kokoro pipeline: " ++ cause
  | .synthesisFailed cause => "Kokoro synthesis failed: " ++ cause
  | .noAudioProduced => "Kokoro returned no audio chunks."
  | .missingOutputPath => "output_path is required when response_format=wav"
  | .rawException cause => cause

/-- `DeviceSelection` dataclass from `plugin.py`. -/
structure DeviceSelection where
  requested : String
  selected : String
  usedFallback : Bool
deriving DecidableEq

/-- The external world: hardware availability probes (torch), whether a
`KPipeline` constructor invocation raises for a given (language, device)
pair together with the cause message, the inference call of a pipeline
handle, and path resolution.  Inference either raises (with a cause) or
yields a list of audio chunks, each a list of samples. -/
structure Env where
  mpsAvailable : Bool
  cudaAvailable : Bool
  initFails : String → String → Bool
  failCause : String → String → String
  infer : Nat → String → String → Rat → Except String (List (List Int))
  expandUser : String → String
  resolve : String → String

/-- `_auto_device` from `plugin.py`: Apple Silicon first, then NVIDIA
CUDA, then CPU. -/
def autoDevice (env : Env) : String :=
  if env.mpsAvailable then "mps" else if env.cudaAvailable then "cuda" else "cpu"

/-- ASCII lowercasing of one character, as in Python `str.lower` for
the ASCII range relevant here. -/
def charLower (c : Char) : Char :=
  if 65 ≤ c.toNat ∧ c.toNat ≤ 90 then Char.ofNat (c.toNat + 32) else c

/-- Python `str.lower`. -/
def pyLower (s : String) : String := String.mk (s.data.map charLower)

/-- The whitespace characters removed by Python `str.strip`. -/
def isPySpace (c : Char) : Bool :=
  c = ' ' || c = '\t' || c = '\n' || c = '\r' || c = Char.ofNat 11 || c = Char.ofNat 12

/-- Python `str.strip`: drop whitespace from both ends. -/
def pyStrip (s : String) : String :=
  String.mk (((s.data.dropWhile isPySpace).reverse.dropWhile isPySpace).reverse)

/-- The normalisation applied by `pick_device` to its argument:
a falsy value (None or the empty string) is replaced by auto, then the
value is lowercased and stripped of surrounding whitespace. -/
def normPref (preferredDevice : Option String) : String :=
  let raw := preferredDevice.getD ""
  pyStrip (pyLower (if raw = "" then "auto" else raw))

/-- `pick_device` from `plugin.py` (the local variable `preferred` of
the source is written out as `normPref preferredDevice`). -/
def pickDevice (env : Env) (preferredDevice : Option String) : Except KError DeviceSelection :=
  if normPref preferredDevice ≠ "auto" ∧ normPref preferredDevice ≠ "mps" ∧
      normPref preferredDevice ≠ "cuda" ∧ normPref preferredDevice ≠ "cpu" then
    .error (.invalidArgument
      ("Invalid preferred_device " ++ preferredDevice.getD "" ++ ". Use auto|mps|cuda|cpu."))
  else if normPref preferredDevice = "auto" then
    .ok ⟨"auto", autoDevice env, false⟩
  else if normPref preferredDevice = "mps" ∧ env.mpsAvailable = false then
    .ok ⟨"mps", "cpu", true⟩
  else if normPref preferredDevice = "cuda" ∧ env.cudaAvailable = false then
    .ok ⟨"cuda", "cpu", true⟩
  else
    .ok ⟨normPref preferredDevice, normPref preferredDevice, false⟩

/-- The mutable state of one `OpenClawKokoroTTSPlugin` instance: the
`_pipelines` cache (pipeline objects modelled as numeric handles), a
fresh-handle counter, and two instrumentation logs recording every
`KPipeline` constructor invocation (`attempts`) and every successful
construction (`built`), most recent first. -/
structure PluginState where
  pipelines : List ((String × String) × Nat)
  nextHandle : Nat
  attempts : List (String × String)
  built : List (String × String)
deriving DecidableEq

/-- The state of a freshly constructed plugin instance: empty cache. -/
def initState : PluginState :=
  { pipelines := [], nextHandle := 0, attempts := [], built := [] }

/-- Dictionary lookup in the cache (first match wins, so insertion by
prepending models Python dict assignment/overwrite). -/
def cacheLookup (c : List ((String × String) × Nat)) (k : String × String) : Option Nat :=
  match c with
  | [] => none
  | (k', v) :: rest => if k' = k then some v else cacheLookup rest k

/-- Dictionary assignment `self._pipelines[key] = pipeline`. -/
def cacheInsert (c : List ((String × String) × Nat)) (k : String × String) (v : Nat) :
    List ((String × String) × Nat) :=
  (k, v) :: c

/-- `OpenClawKokoroTTSPlugin._get_pipeline` from `plugin.py`.
Returns the result (pipeline handle and device selection, or an error)
together with the updated instance state. -/
def getPipeline (env : Env) (s : PluginState) (langCode : String) (preferredDevice : String) :
    Except KError (Nat × DeviceSelection) × PluginState :=
  if supportedLangCodes.contains langCode = false then
    (.error (.unsupportedLanguage langCode supportedLangCodes), s)
  else
    match pickDevice env (some preferredDevice) with
    | .error e => (.error e, s)
    | .ok selection =>
      match cacheLookup s.pipelines (langCode, selection.selected) with
      | some h => (.ok (h, selection), s)
      | none =>
        if env.initFails langCode selection.selected then
          -- the first constructor invocation raised
          if selection.selected ≠ "cpu" then
            -- retry once on cpu; a failure here propagates unwrapped
            if env.initFails langCode "cpu" then
              (.error (.rawException (env.failCause langCode "cpu")),
               { s with
                  attempts := (langCode, "cpu") :: (langCode, selection.selected) :: s.attempts })
            else
              (.ok (s.nextHandle, ⟨selection.requested, "cpu", true⟩),
               { s with
                  attempts := (langCode, "cpu") :: (langCode, selection.selected) :: s.attempts,
                  built := (langCode, "cpu") :: s.built,
                  pipelines := cacheInsert s.pipelines (langCode, "cpu") s.nextHandle,
                  nextHandle := s.nextHandle + 1 })
          else
            (.error (.pipelineInitFailed (env.failCause langCode "cpu")),
             { s with attempts := (langCode, selection.selected) :: s.attempts })
        else
          (.ok (s.nextHandle, selection),
           { s with
              attempts := (langCode, selection.selected) :: s.attempts,
              built := (langCode, selection.selected) :: s.built,
              pipelines := cacheInsert s.pipelines (langCode, selection.selected) s.nextHandle,
              nextHandle := s.nextHandle + 1 })

/-- Run a sequence of `_get_pipeline` calls, each given as a
(language code, preferred device) pair, threading the instance state. -/
def runCalls (env : Env) (s : PluginState) : List (String × String) → PluginState
  | [] => s
  | (l, d) :: rest => runCalls env (getPipeline env s l d).2 rest

/-- A 16-bit little-endian field of a WAV header. -/
def le16 (n : Nat) : List Nat := [n % 256, n / 256 % 256]

/-- A 32-bit little-endian field of a WAV header. -/
def le32 (n : Nat) : List Nat :=
  [n % 256, n / 256 % 256, n / 65536 % 256, n / 16777216 % 256]

/-- Modelled from the spec: the external `soundfile` WAV writer, out of
scope for the repository ("writes a standard PCM WAV file at the given
sample rate").  Modelled as the standard 44-byte RIFF/WAVE header for
16-bit mono PCM followed by the little-endian sample data; the exact
byte layout is external, what matters here is that the stream is a pure
function of the samples and is never empty. -/
def wavEncode (samples : List Int) (sampleRate : Nat) : List Nat :=
  let dataSize := 2 * samples.length
  (82 :: 73 :: 70 :: 70 :: le32 (36 + dataSize)) ++
    [87, 65, 86, 69, 102, 109, 116, 32] ++ le32 16 ++ le16 1 ++ le16 1 ++
    le32 sampleRate ++ le32 (sampleRate * 2) ++ le16 2 ++ le16 16 ++
    [100, 97, 116, 97] ++ le32 dataSize ++
    (samples.map fun v => le16 (v % 65536).toNat).flatten

/-- The standard base64 alphabet. -/
def base64Alphabet : String :=
  "ABCDEFGHIJKLMNOPQRSTUVWXYZabcdefghijklmnopqrstuvwxyz0123456789+/"

/-- The base64 digit for a 6-bit value. -/
def b64Char (n : Nat) : Char := base64Alphabet.toList.getD n 'A'

/-- Modelled from the spec: Python's `base64.b64encode` on a byte
string (standard RFC 4648 encoding with padding), external to the
repository. -/
def base64Encode : List Nat → String
  | [] => ""
  | [b1] =>
      String.mk [b64Char (b1 / 4), b64Char (b1 % 4 * 16), '=', '=']
  | [b1, b2] =>
      String.mk [b64Char (b1 / 4), b64Char (b1 % 4 * 16 + b2 / 16), b64Char (b2 % 16 * 4), '=']
  | b1 :: b2 :: b3 :: rest =>
      String.mk [b64Char (b1 / 4), b64Char (b1 % 4 * 16 + b2 / 16),
                 b64Char (b2 % 16 * 4 + b3 / 64), b64Char (b3 % 64)] ++
        base64Encode rest

/-- The constructor arguments of `OpenClawKokoroTTSPlugin.__init__`. -/
structure PluginConfig where
  defaultLangCode : String := "a"
  preferredDevice : String := "auto"

/-- The parameters of `synthesize` (`None` modelled as `none`). -/
structure SynthArgs where
  text : String
  voice : String := "af_heart"
  speed : Rat := 1
  langCode : Option String := none
  preferredDevice : Option String := none
  outputPath : Option String := none
  responseFormat : String := "wav"

/-- The result dictionary built by `synthesize`; the two optional keys
are present exactly when the corresponding `Option` field is `some`. -/
structure SynthResult where
  sampleRate : Nat
  deviceRequested : String
  deviceUsed : String
  usedFallback : Bool
  langCode : String
  voice : String
  speed : Rat
  responseFormat : String
  outputPath : Option String := none
  audioBase64 : Option String := none
deriving DecidableEq

/-- An observable filesystem side effect of `synthesize`. -/
inductive FsEvent where
  | mkdirParents (path : String)
  | writeWav (path : String) (bytes : List Nat)
deriving DecidableEq

/-- The outcome of one `synthesize` call: its result or error, the
instance state afterwards, and the filesystem effects it performed. -/
structure SynthOut where
  res : Except KError SynthResult
  state : PluginState
  fs : List FsEvent

/-- `lang = (lang_code or self.default_lang_code).strip()`. -/
def resolveLang (cfg : PluginConfig) (a : SynthArgs) : String :=
  pyStrip (match a.langCode with
   | none => cfg.defaultLangCode
   | some l => if l = "" then cfg.defaultLangCode else l)

/-- `device_pref = preferred_device or self.preferred_device`. -/
def resolveDevicePref (cfg : PluginConfig) (a : SynthArgs) : String :=
  match a.preferredDevice with
  | none => cfg.preferredDevice
  | some d => if d = "" then cfg.preferredDevice else d

/-- `OpenClawKokoroTTSPlugin.synthesize` from `plugin.py`. -/
def synthesize (env : Env) (cfg : PluginConfig) (s : PluginState) (a : SynthArgs) : SynthOut :=
  if a.text = "" ∨ pyStrip a.text = "" then
    { res := .error .emptyInput, state := s, fs := [] }
  else
    match getPipeline env s (resolveLang cfg a) (resolveDevicePref cfg a) with
    | (.error e, s') => { res := .error e, state := s', fs := [] }
    | (.ok (handle, selection), s') =>
      match env.infer handle (pyStrip a.text) a.voice a.speed with
      | .error cause => { res := .error (.synthesisFailed cause), state := s', fs := [] }
      | .ok chunks =>
        if chunks.isEmpty then
          { res := .error .noAudioProduced, state := s', fs := [] }
        else
          if a.responseFormat ≠ "wav" ∧ a.responseFormat ≠ "wav_base64" then
            { res := .error (.invalidArgument "response_format must be one of: wav, wav_base64"),
              state := s', fs := [] }
          else
            if a.responseFormat = "wav_base64" then
              { res := .ok
                  { sampleRate := 24000,
                    deviceRequested := selection.requested,
                    deviceUsed := selection.selected,
                    usedFallback := selection.usedFallback,
                    langCode := resolveLang cfg a,
                    voice := a.voice,
                    speed := a.speed,
                    responseFormat := a.responseFormat,
                    audioBase64 := some (base64Encode (wavEncode chunks.flatten 24000)) },
                state := s', fs := [] }
            else
              match a.outputPath with
              | none => { res := .error .missingOutputPath, state := s', fs := [] }
              | some p0 =>
                { res := .ok
                    { sampleRate := 24000,
                      deviceRequested := selection.requested,
                      deviceUsed := selection.selected,
                      usedFallback := selection.usedFallback,
                      langCode := resolveLang cfg a,
                      voice := a.voice,
                      speed := a.speed,
                      responseFormat := a.responseFormat,
                      outputPath := some (env.resolve (env.expandUser p0)) },
                  state := s',
                  fs := [.mkdirParents (env.resolve (env.expandUser p0)),
                         .writeWav (env.resolve (env.expandUser p0))
                           (wavEncode chunks.flatten 24000)] }

/-- The parsed command-line arguments of `cli.py` with their argparse
defaults (argparse itself is the external process-argument shell). -/
structure CliArgs where
  text : String
  voice : String := "af_heart"
  lang : String := "a"
  speed : Rat := 1
  device : String := "auto"
  responseFormat : String := "wav"
  output : String := "./output.wav"

/-- The single JSON line printed by the command-line adapter. -/
inductive CliLine where
  | okEnvelope (result : SynthResult)
  | errEnvelope (error : String)
deriving DecidableEq

/-- The outcome of `cli.main`: a printed envelope with a process exit
status, or an exception that escapes the `except KokoroPluginError`
clause uncaught. -/
inductive CliOutcome where
  | emitted (line : CliLine) (exit : Nat)
  | uncaught (e : KError)
deriving DecidableEq

/-- The `synthesize` call performed by `cli.main` on the freshly
constructed plugin instance. -/
def cliSynth (env : Env) (args : CliArgs) : SynthOut :=
  synthesize env
    { defaultLangCode := args.lang, preferredDevice := args.device }
    initState
    { text := args.text,
      voice := args.voice,
      speed := args.speed,
      langCode := some args.lang,
      preferredDevice := some args.device,
      outputPath :=
        if args.responseFormat = "wav" then some (env.expandUser args.output) else none,
      responseFormat := args.responseFormat }

/-- `main` from `cli.py`: runs `synthesize`, catches
`KokoroPluginError` into a JSON error envelope with exit status 1, and
otherwise prints the success envelope with exit status 0. -/
def cliMain (env : Env) (args : CliArgs) : CliOutcome :=
  match (cliSynth env args).res with
  | .ok r => .emitted (.okEnvelope r) 0
  | .error e =>
    if e.isKokoroPluginError then .emitted (.errEnvelope (renderError e)) 1
    else .uncaught e

/-- A concrete environment with no accelerator available, no
construction failures, and a fixed successful inference outcome;
used to instantiate the general theorems at concrete inputs. -/
def envNoAccel : Env :=
  { mpsAvailable := false, cudaAvailable := false,
    initFails := fun _ _ => false, failCause := fun _ _ => "",
    infer := fun _ _ _ _ => .ok [[1, 2], [3]],
    expandUser := id, resolve := id }

/-- A concrete environment where CUDA is reported available but every
`KPipeline` construction on the cuda device raises. -/
def envCudaInitFail : Env :=
  { envNoAccel with
      cudaAvailable := true,
      initFails := fun _ d => d == "cuda",
      failCause := fun _ _ => "boom" }

/-- A concrete environment where CUDA is reported available and every
`KPipeline` construction raises, on any device. -/
def envAllInitFail : Env :=
  { envNoAccel with
      cudaAvailable := true,
      initFails := fun _ _ => true,
      failCause := fun _ _ => "boom" }

/-- The cache bookkeeping invariant: the log of successfully
constructed keys has no duplicates, and a key has been constructed
exactly when it is present in the cache. -/
def CacheInv (s : PluginState) : Prop :=
  s.built.Nodup ∧ ∀ k, k ∈ s.built ↔ (cacheLookup s.pipelines k).isSome = true

/-! ## Helper lemmas -/

theorem pyStrip_empty : pyStrip "" = "" := rfl

theorem synth_guard_false {t : String} (h : pyStrip t ≠ "") : ¬(t = "" ∨ pyStrip t = "") := by
  rintro (h0 | h0)
  · exact h (by rw [h0]; rfl)
  · exact h h0

/-! ## Claims about `pick_device` -/

/-- C6: for every `text` argument that is empty or whitespace-only
after trimming, `synthesize` fails with an EmptyInput error before any
pipeline is touched, leaving the pipeline cache unchanged. -/
theorem synthesize_empty_input (env : Env) (cfg : PluginConfig) (s : PluginState)
    (a : SynthArgs) (h : pyStrip a.text = "") :
    synthesize env cfg s a = { res := .error .emptyInput, state := s, fs := [] } := by
  unfold synthesize
  rw [if_pos (Or.inr h)]

theorem synthesize_empty_input_witness :
    pyStrip "  " = "" ∧
    synthesize envNoAccel {} initState { text := "  " } =
      { res := .error .emptyInput, state := initState, fs := [] } :=
  ⟨rfl, synthesize_empty_input envNoAccel {} initState { text := "  " } rfl⟩

/-- C7: for every preference whose normalised form (falsy treated as
auto, then lowercased and stripped) is outside the set
auto/mps/cuda/cpu, `pick_device` fails with an InvalidArgument error. -/
theorem pick_device_invalid_argument (env : Env) (d : Option String)
    (h1 : normPref d ≠ "auto") (h2 : normPref d ≠ "mps")
    (h3 : normPref d ≠ "cuda") (h4 : normPref d ≠ "cpu") :
    pickDevice env d = .error (.invalidArgument
      ("Invalid preferred_device " ++ d.getD "" ++ ". Use auto|mps|cuda|cpu.")) := by
  unfold pickDevice
  rw [if_pos ⟨h1, h2, h3, h4⟩]

theorem pick_device_invalid_argument_witness :
    normPref (some "gpu") ≠ "auto" ∧
    pickDevice envNoAccel (some "gpu") = .error (.invalidArgument
      "Invalid preferred_device gpu. Use auto|mps|cuda|cpu.") :=
  ⟨by decide,
   pick_device_invalid_argument envNoAccel (some "gpu")
     (by decide) (by decide) (by decide) (by decide)⟩

/-- C10: `pick_device` normalises its input before validating: a None
or empty preference is treated as auto, and the value is lowercased and
stripped of surrounding whitespace, so inputs such as CPU or cuda with
surrounding spaces are accepted rather than rejected. -/
theorem pick_device_normalizes (env : Env) :
    pickDevice env none = pickDevice env (some "auto")
  ∧ pickDevice env (some "") = pickDevice env (some "auto")
  ∧ pickDevice env (some "CPU") = .ok ⟨"cpu", "cpu", false⟩
  ∧ (env.cudaAvailable = true → pickDevice env (some "  cuda ") = .ok ⟨"cuda", "cuda", false⟩)
  ∧ (env.cudaAvailable = false → pickDevice env (some "  cuda ") = .ok ⟨"cuda", "cpu", true⟩) := by
  obtain ⟨mps, cuda, f1, f2, f3, f4, f5⟩ := env
  refine ⟨rfl, rfl, rfl, ?_, ?_⟩ <;> rintro rfl <;> rfl

theorem pick_device_normalizes_witness :
    pickDevice envNoAccel (some "  cuda ") = .ok ⟨"cuda", "cpu", true⟩ ∧
    pickDevice envNoAccel (some "CPU") = .ok ⟨"cpu", "cpu", false⟩ :=
  ⟨(pick_device_normalizes envNoAccel).2.2.2.2 rfl,
   (pick_device_normalizes envNoAccel).2.2.1⟩

/-- C3: `pick_device` never returns selected auto; on preference auto
it probes mps then cuda then falls back to cpu in that fixed order with
`used_fallback = false`; a specific accelerator that is unavailable
yields cpu with `used_fallback = true`; cpu is always honored with
`used_fallback = false`. -/
theorem pick_device_policy (env : Env) :
    (∀ d sel, pickDevice env d = .ok sel → sel.selected ≠ "auto")
  ∧ pickDevice env (some "auto") =
      .ok ⟨"auto", if env.mpsAvailable then "mps" else if env.cudaAvailable then "cuda" else "cpu",
           false⟩
  ∧ (env.mpsAvailable = false → pickDevice env (some "mps") = .ok ⟨"mps", "cpu", true⟩)
  ∧ (env.cudaAvailable = false → pickDevice env (some "cuda") = .ok ⟨"cuda", "cpu", true⟩)
  ∧ pickDevice env (some "cpu") = .ok ⟨"cpu", "cpu", false⟩ := by
  obtain ⟨mps, cuda, f1, f2, f3, f4, f5⟩ := env
  refine ⟨?_, rfl, ?_, ?_, rfl⟩
  · intro d sel h
    unfold pickDevice at h
    split at h
    · simp at h
    · split at h
      · injection h with h'
        subst h'
        show autoDevice _ ≠ "auto"
        unfold autoDevice
        split_ifs <;> decide
      · split at h
        · injection h with h'
          subst h'
          decide
        · split at h
          · injection h with h'
            subst h'
            decide
          · injection h with h'
            subst h'
            show normPref d ≠ "auto"
            assumption
  · rintro rfl
    rfl
  · rintro rfl
    rfl

theorem pick_device_policy_witness :
    pickDevice envNoAccel (some "mps") = .ok ⟨"mps", "cpu", true⟩ ∧
    pickDevice envNoAccel (some "cuda") = .ok ⟨"cuda", "cpu", true⟩ ∧
    (⟨"auto", "cpu", false⟩ : DeviceSelection).selected ≠ "auto" :=
  ⟨(pick_device_policy envNoAccel).2.2.1 rfl,
   (pick_device_policy envNoAccel).2.2.2.1 rfl,
   (pick_device_policy envNoAccel).1 (some "auto") ⟨"auto", "cpu", false⟩ rfl⟩

/-! ## Claims about `_get_pipeline` -/

theorem getPipeline_unsupported (env : Env) (s : PluginState) (lang pref : String)
    (h : supportedLangCodes.contains lang = false) :
    getPipeline env s lang pref = (.error (.unsupportedLanguage lang supportedLangCodes), s) := by
  unfold getPipeline
  rw [if_pos h]

/-- C8: for every language code outside the supported set (a and b),
`_get_pipeline` — and hence `synthesize` — fails with an
UnsupportedLanguage error carrying the list of valid codes. -/
theorem get_pipeline_unsupported_language (env : Env) :
    (∀ s lang pref, supportedLangCodes.contains lang = false →
        getPipeline env s lang pref = (.error (.unsupportedLanguage lang supportedLangCodes), s))
  ∧ supportedLangCodes = ["a", "b"]
  ∧ (∀ cfg s a, pyStrip a.text ≠ "" →
        supportedLangCodes.contains (resolveLang cfg a) = false →
        synthesize env cfg s a =
          { res := .error (.unsupportedLanguage (resolveLang cfg a) supportedLangCodes),
            state := s, fs := [] }) := by
  refine ⟨fun s lang pref h => getPipeline_unsupported env s lang pref h, rfl, ?_⟩
  intro cfg s a ht hl
  unfold synthesize
  rw [if_neg (synth_guard_false ht), getPipeline_unsupported env s _ _ hl]

theorem get_pipeline_unsupported_language_witness :
    supportedLangCodes.contains "z" = false ∧
    getPipeline envNoAccel initState "z" "cpu" =
      (.error (.unsupportedLanguage "z" supportedLangCodes), initState) ∧
    synthesize envNoAccel {} initState { text := "Hello", langCode := some "z" } =
      { res := .error (.unsupportedLanguage "z" supportedLangCodes), state := initState,
        fs := [] } :=
  ⟨rfl,
   (get_pipeline_unsupported_language envNoAccel).1 initState "z" "cpu" rfl,
   (get_pipeline_unsupported_language envNoAccel).2.2 {} initState
     { text := "Hello", langCode := some "z" } (by decide) rfl⟩

/-- C2 (amended): if pipeline construction raises and the resolved
device was not cpu, construction is retried exactly once with the
device forced to cpu; if the original failure occurred on cpu, the call
fails with PipelineInitFailed wrapping the cause; but if the cpu retry
itself fails, the retry's underlying exception propagates unwrapped
rather than as a PipelineInitFailed `KokoroPluginError`. -/
theorem get_pipeline_cpu_retry (env : Env) (s : PluginState) (lang pref : String)
    (sel : DeviceSelection)
    (hlang : supportedLangCodes.contains lang = true)
    (hpick : pickDevice env (some pref) = .ok sel)
    (hmiss : cacheLookup s.pipelines (lang, sel.selected) = none)
    (hfail : env.initFails lang sel.selected = true) :
    (sel.selected ≠ "cpu" →
       (getPipeline env s lang pref).2.attempts =
           (lang, "cpu") :: (lang, sel.selected) :: s.attempts
       ∧ (env.initFails lang "cpu" = true →
            (getPipeline env s lang pref).1 = .error (.rawException (env.failCause lang "cpu")))
       ∧ (env.initFails lang "cpu" = false →
            (getPipeline env s lang pref).1 = .ok (s.nextHandle, ⟨sel.requested, "cpu", true⟩)
            ∧ cacheLookup (getPipeline env s lang pref).2.pipelines (lang, "cpu")
                = some s.nextHandle))
  ∧ (sel.selected = "cpu" →
       getPipeline env s lang pref =
         (.error (.pipelineInitFailed (env.failCause lang "cpu")),
          { s with attempts := (lang, "cpu") :: s.attempts })) := by
  have hmem : lang ∈ supportedLangCodes := by simpa using hlang
  constructor
  · intro hne
    refine ⟨?_, fun hc => ?_, fun hc => ⟨?_, ?_⟩⟩
    · simp only [getPipeline, hpick, hmiss, hfail]
      simp [hmem, hne]
      split <;> rfl
    · simp [getPipeline, hmem, hpick, hmiss, hfail, hne, hc]
    · simp [getPipeline, hmem, hpick, hmiss, hfail, hne, hc]
    · simp [getPipeline, hmem, hpick, hmiss, hfail, hne, hc, cacheInsert, cacheLookup]
  · intro hcpu
    have hmiss' : cacheLookup s.pipelines (lang, "cpu") = none := hcpu ▸ hmiss
    have hfail' : env.initFails lang "cpu" = true := hcpu ▸ hfail
    simp [getPipeline, hmem, hpick, hmiss', hfail', hcpu]

theorem get_pipeline_cpu_retry_witness :
    (getPipeline envAllInitFail initState "a" "cuda").2.attempts = [("a", "cpu"), ("a", "cuda")] ∧
    (getPipeline envAllInitFail initState "a" "cuda").1 = .error (.rawException "boom") ∧
    getPipeline envAllInitFail initState "a" "cpu" =
      (.error (.pipelineInitFailed "boom"),
       { initState with attempts := [("a", "cpu")] }) :=
  ⟨((get_pipeline_cpu_retry envAllInitFail initState "a" "cuda"
       ⟨"cuda", "cuda", false⟩ rfl rfl rfl rfl).1 (by decide)).1,
   ((get_pipeline_cpu_retry envAllInitFail initState "a" "cuda"
       ⟨"cuda", "cuda", false⟩ rfl rfl rfl rfl).1 (by decide)).2.1 rfl,
   (get_pipeline_cpu_retry envAllInitFail initState "a" "cpu"
       ⟨"cpu", "cpu", false⟩ rfl rfl rfl rfl).2 rfl⟩

/-- C2 counterexample: with CUDA reported available and every
construction failing, the cpu retry's failure surfaces as the raw
unwrapped exception, which is not a `KokoroPluginError` at all, so the
claim that a failing retry yields a PipelineInitFailed
`KokoroPluginError` is false. -/
theorem get_pipeline_retry_failure_unwrapped_cex :
    (getPipeline envAllInitFail initState "a" "cuda").1 = .error (.rawException "boom")
  ∧ KError.isKokoroPluginError (.rawException "boom") = false
  ∧ (.rawException "boom" : KError) ≠ .pipelineInitFailed "boom" :=
  ⟨rfl, rfl, by decide⟩

theorem cacheLookup_insert (c : List ((String × String) × Nat)) (k k' : String × String)
    (v : Nat) :
    cacheLookup (cacheInsert c k v) k' = if k = k' then some v else cacheLookup c k' := rfl

theorem initState_inv : CacheInv initState :=
  ⟨List.nodup_nil, fun k => by simp [initState, cacheLookup]⟩

theorem getPipeline_pick_error (env : Env) (s : PluginState) (lang pref : String) (e : KError)
    (hlang : supportedLangCodes.contains lang = true)
    (hpick : pickDevice env (some pref) = .error e) :
    getPipeline env s lang pref = (.error e, s) := by
  have hmem : lang ∈ supportedLangCodes := by simpa using hlang
  simp [getPipeline, hmem, hpick]

theorem getPipeline_cache_hit (env : Env) (s : PluginState) (lang pref : String)
    (sel : DeviceSelection) (h₀ : Nat)
    (hpick : pickDevice env (some pref) = .ok sel)
    (hhit : cacheLookup s.pipelines (lang, sel.selected) = some h₀)
    (hlang : supportedLangCodes.contains lang = true) :
    getPipeline env s lang pref = (.ok (h₀, sel), s) := by
  have hmem : lang ∈ supportedLangCodes := by simpa using hlang
  simp [getPipeline, hmem, hpick, hhit]

theorem getPipeline_build (env : Env) (s : PluginState) (lang pref : String)
    (sel : DeviceSelection)
    (hlang : supportedLangCodes.contains lang = true)
    (hpick : pickDevice env (some pref) = .ok sel)
    (hmiss : cacheLookup s.pipelines (lang, sel.selected) = none)
    (hok : env.initFails lang sel.selected = false) :
    getPipeline env s lang pref =
      (.ok (s.nextHandle, sel),
       { s with
          attempts := (lang, sel.selected) :: s.attempts,
          built := (lang, sel.selected) :: s.built,
          pipelines := cacheInsert s.pipelines (lang, sel.selected) s.nextHandle,
          nextHandle := s.nextHandle + 1 }) := by
  have hmem : lang ∈ supportedLangCodes := by simpa using hlang
  simp [getPipeline, hmem, hpick, hmiss, hok]

theorem getPipeline_preserves_inv (env : Env)
    (hnf : ∀ l d, env.initFails l d = false) (s : PluginState) (l d : String)
    (hinv : CacheInv s) : CacheInv (getPipeline env s l d).2 := by
  by_cases hlang : supportedLangCodes.contains l = false
  · rw [getPipeline_unsupported env s l d hlang]
    exact hinv
  · have hl2 : supportedLangCodes.contains l = true := by
      revert hlang
      cases supportedLangCodes.contains l <;> simp
    cases hp : pickDevice env (some d) with
    | error e =>
      rw [getPipeline_pick_error env s l d e hl2 hp]
      exact hinv
    | ok sel =>
      cases hl : cacheLookup s.pipelines (l, sel.selected) with
      | some h =>
        rw [getPipeline_cache_hit env s l d sel h hp hl hl2]
        exact hinv
      | none =>
        rw [getPipeline_build env s l d sel hl2 hp hl (hnf l sel.selected)]
        constructor
        · refine List.nodup_cons.mpr ⟨?_, hinv.1⟩
          intro hm
          have hs := (hinv.2 _).mp hm
          rw [hl] at hs
          exact Bool.noConfusion hs
        · intro k
          rw [cacheLookup_insert]
          by_cases hk : (l, sel.selected) = k
          · subst hk
            simp
          · simp only [if_neg hk, List.mem_cons]
            constructor
            · rintro (h1 | h1)
              · exact absurd h1.symm hk
              · exact (hinv.2 k).mp h1
            · intro h1
              exact Or.inr ((hinv.2 k).mpr h1)

theorem runCalls_preserves_inv (env : Env) (hnf : ∀ l d, env.initFails l d = false)
    (calls : List (String × String)) :
    ∀ s, CacheInv s → CacheInv (runCalls env s calls) := by
  induction calls with
  | nil => exact fun s h => h
  | cons c rest ih =>
    intro s h
    obtain ⟨l, d⟩ := c
    exact ih _ (getPipeline_preserves_inv env hnf s l d h)

/-- C1 (amended): as long as no pipeline construction fails, a pipeline
is constructed at most once per (language_code, resolved_device) key
for the lifetime of the instance (the log of successful constructions
has no duplicate keys along any call sequence), and a request whose key
is already cached returns the cached handle unchanged; but the CPU-retry
path taken after a construction failure rebuilds the cpu pipeline
without consulting the cache (see the counterexample). -/
theorem pipeline_constructed_once_per_key (env : Env)
    (hnf : ∀ l d, env.initFails l d = false) (calls : List (String × String)) :
    (runCalls env initState calls).built.Nodup
  ∧ ∀ s lang pref sel h₀,
      pickDevice env (some pref) = .ok sel →
      cacheLookup s.pipelines (lang, sel.selected) = some h₀ →
      supportedLangCodes.contains lang = true →
      getPipeline env s lang pref = (.ok (h₀, sel), s) :=
  ⟨(runCalls_preserves_inv env hnf calls initState initState_inv).1,
   fun s lang pref sel h₀ hp hh hl => getPipeline_cache_hit env s lang pref sel h₀ hp hh hl⟩

theorem pipeline_constructed_once_per_key_witness :
    (runCalls envNoAccel initState
       [("a", "cpu"), ("a", "auto"), ("a", "cpu"), ("b", "cpu")]).built.Nodup
  ∧ getPipeline envNoAccel
      { pipelines := [(("a", "cpu"), 7)], nextHandle := 8,
        attempts := [("a", "cpu")], built := [("a", "cpu")] } "a" "cpu" =
      (.ok (7, ⟨"cpu", "cpu", false⟩),
       { pipelines := [(("a", "cpu"), 7)], nextHandle := 8,
         attempts := [("a", "cpu")], built := [("a", "cpu")] }) :=
  ⟨(pipeline_constructed_once_per_key envNoAccel (fun _ _ => rfl)
      [("a", "cpu"), ("a", "auto"), ("a", "cpu"), ("b", "cpu")]).1,
   (pipeline_constructed_once_per_key envNoAccel (fun _ _ => rfl) []).2
     { pipelines := [(("a", "cpu"), 7)], nextHandle := 8,
       attempts := [("a", "cpu")], built := [("a", "cpu")] }
     "a" "cpu" ⟨"cpu", "cpu", false⟩ 7 rfl rfl rfl⟩

/-- C1 counterexample: with CUDA reported available but failing to
initialise, a first call on cpu builds and caches the (a, cpu)
pipeline, and a later cuda call takes the CPU-retry path, which
constructs a second pipeline for the same (a, cpu) key without
consulting the cache — so the (a, cpu) key is constructed twice, and a
later cpu request returns handle 1 instead of the originally cached
handle 0. -/
theorem pipeline_cache_retry_rebuild_cex :
    ((runCalls envCudaInitFail initState [("a", "cpu"), ("a", "cuda")]).built.count ("a", "cpu"))
      = 2
  ∧ (getPipeline envCudaInitFail initState "a" "cpu").1 = .ok (0, ⟨"cpu", "cpu", false⟩)
  ∧ (getPipeline envCudaInitFail
        (runCalls envCudaInitFail initState [("a", "cpu"), ("a", "cuda")]) "a" "cpu").1
      = .ok (1, ⟨"cpu", "cpu", false⟩) :=
  ⟨by decide, rfl, rfl⟩

/-! ## Claims about `synthesize` and the CLI adapter -/

/-- C4 (amended): every `response_format` outside wav / wav_base64
makes `synthesize` fail with InvalidArgument, but this validation runs
only after the pipeline has been obtained and inference has run: the
call returns the post-pipeline-acquisition state `s'`, so a pipeline
may be constructed (and inference invoked) before the error is
raised. -/
theorem synthesize_invalid_format_after_pipeline (env : Env) (cfg : PluginConfig)
    (s s' : PluginState) (a : SynthArgs) (hdl : Nat) (sel : DeviceSelection)
    (chunks : List (List Int))
    (htext : pyStrip a.text ≠ "")
    (hgp : getPipeline env s (resolveLang cfg a) (resolveDevicePref cfg a) = (.ok (hdl, sel), s'))
    (hinf : env.infer hdl (pyStrip a.text) a.voice a.speed = .ok chunks)
    (hne : chunks ≠ [])
    (hfmt1 : a.responseFormat ≠ "wav") (hfmt2 : a.responseFormat ≠ "wav_base64") :
    synthesize env cfg s a =
      { res := .error (.invalidArgument "response_format must be one of: wav, wav_base64"),
        state := s', fs := [] } := by
  unfold synthesize
  rw [if_neg (synth_guard_false htext), hgp]
  dsimp only
  rw [hinf]
  dsimp only
  rw [if_neg (by simp [List.isEmpty_iff, hne] : ¬(chunks.isEmpty = true)),
    if_pos ⟨hfmt1, hfmt2⟩]

theorem synthesize_invalid_format_after_pipeline_witness :
    synthesize envNoAccel {} initState { text := "Hello", responseFormat := "xml" } =
      { res := .error (.invalidArgument "response_format must be one of: wav, wav_base64"),
        state := { pipelines := [(("a", "cpu"), 0)], nextHandle := 1,
                   attempts := [("a", "cpu")], built := [("a", "cpu")] },
        fs := [] } :=
  synthesize_invalid_format_after_pipeline envNoAccel {} initState
    { pipelines := [(("a", "cpu"), 0)], nextHandle := 1,
      attempts := [("a", "cpu")], built := [("a", "cpu")] }
    { text := "Hello", responseFormat := "xml" } 0 ⟨"auto", "cpu", false⟩ [[1, 2], [3]]
    (by decide) rfl rfl (by decide) (by decide) (by decide)

/-- C4 counterexample: a call with an invalid `response_format`
("xml") does fail with InvalidArgument, but only after a pipeline was
constructed and cached: the cache, empty before the call, holds the
(a, cpu) pipeline afterwards — so the validation does not happen
before the pipeline is obtained. -/
theorem synthesize_format_checked_late_cex :
    (synthesize envNoAccel {} initState { text := "Hello", responseFormat := "xml" }).res
      = .error (.invalidArgument "response_format must be one of: wav, wav_base64")
  ∧ (synthesize envNoAccel {} initState { text := "Hello", responseFormat := "xml" }).state.built
      = [("a", "cpu")]
  ∧ initState.built = [] :=
  ⟨rfl, rfl, rfl⟩

/-- C5: every error kind raised as a `KokoroPluginError` by
`synthesize` (InvalidArgument, UnsupportedLanguage, EmptyInput,
PipelineInitFailed, SynthesisFailed, NoAudioProduced,
MissingOutputPath) is caught uniformly by the command-line adapter,
which emits the JSON error envelope with exit status 1; on success it
emits the success envelope with exit status 0. -/
theorem cli_uniform_error_envelope (env : Env) (args : CliArgs) :
    (∀ e, (cliSynth env args).res = .error e → e.isKokoroPluginError = true →
        cliMain env args = .emitted (.errEnvelope (renderError e)) 1)
  ∧ (∀ r, (cliSynth env args).res = .ok r →
        cliMain env args = .emitted (.okEnvelope r) 0) := by
  constructor
  · intro e he hk
    unfold cliMain
    rw [he]
    simp [hk]
  · intro r hr
    unfold cliMain
    rw [hr]

theorem cli_uniform_error_envelope_witness :
    cliMain envNoAccel { text := "" } = .emitted (.errEnvelope "Text is required.") 1
  ∧ cliMain envNoAccel { text := "Hi" } =
      .emitted (.okEnvelope
        { sampleRate := 24000, deviceRequested := "auto", deviceUsed := "cpu",
          usedFallback := false, langCode := "a", voice := "af_heart", speed := 1,
          responseFormat := "wav", outputPath := some "./output.wav" }) 0 :=
  ⟨(cli_uniform_error_envelope envNoAccel { text := "" }).1 .emptyInput rfl rfl,
   (cli_uniform_error_envelope envNoAccel { text := "Hi" }).2 _ rfl⟩

theorem wavEncode_ne_nil (samples : List Int) (r : Nat) : wavEncode samples r ≠ [] := by
  simp [wavEncode]

theorem base64Encode_ne_empty : ∀ bytes : List Nat, bytes ≠ [] → base64Encode bytes ≠ ""
  | [], h => absurd rfl h
  | [b1], _ => by
      intro hEq
      have hd := congrArg String.data hEq
      simp [base64Encode] at hd
  | [b1, b2], _ => by
      intro hEq
      have hd := congrArg String.data hEq
      simp [base64Encode] at hd
  | b1 :: b2 :: b3 :: rest, _ => by
      intro hEq
      have hd := congrArg String.data hEq
      simp [base64Encode, String.data_append] at hd

/-- C9: a `synthesize` call with `response_format = "wav_base64"`
performs no filesystem write, and when it succeeds the result carries a
populated (non-empty) `audio_base64` field and no `output_path`
field. -/
theorem synthesize_base64_no_fs (env : Env) (cfg : PluginConfig) (s : PluginState)
    (a : SynthArgs) (hfmt : a.responseFormat = "wav_base64") :
    (synthesize env cfg s a).fs = []
  ∧ ∀ r, (synthesize env cfg s a).res = .ok r →
      r.outputPath = none ∧ ∃ b64, r.audioBase64 = some b64 ∧ b64 ≠ "" := by
  by_cases hg : (a.text = "" ∨ pyStrip a.text = "")
  · have hs : synthesize env cfg s a = { res := .error .emptyInput, state := s, fs := [] } := by
      unfold synthesize
      rw [if_pos hg]
    rw [hs]
    exact ⟨rfl, fun r hr => by simp at hr⟩
  · rcases hgp : getPipeline env s (resolveLang cfg a) (resolveDevicePref cfg a) with ⟨gres, s'⟩
    cases gres with
    | error e =>
      have hs : synthesize env cfg s a = { res := .error e, state := s', fs := [] } := by
        unfold synthesize
        rw [if_neg hg, hgp]
      rw [hs]
      exact ⟨rfl, fun r hr => by simp at hr⟩
    | ok pr =>
      obtain ⟨hdl, sel⟩ := pr
      cases hinf : env.infer hdl (pyStrip a.text) a.voice a.speed with
      | error cause =>
        have hs : synthesize env cfg s a =
            { res := .error (.synthesisFailed cause), state := s', fs := [] } := by
          unfold synthesize
          rw [if_neg hg, hgp]
          dsimp only
          rw [hinf]
        rw [hs]
        exact ⟨rfl, fun r hr => by simp at hr⟩
      | ok chunks =>
        cases chunks with
        | nil =>
          have hs : synthesize env cfg s a =
              { res := .error .noAudioProduced, state := s', fs := [] } := by
            unfold synthesize
            rw [if_neg hg, hgp]
            dsimp only
            rw [hinf]
            rfl
          rw [hs]
          exact ⟨rfl, fun r hr => by simp at hr⟩
        | cons c cs =>
          have hs : synthesize env cfg s a =
              { res := .ok
                  { sampleRate := 24000, deviceRequested := sel.requested,
                    deviceUsed := sel.selected, usedFallback := sel.usedFallback,
                    langCode := resolveLang cfg a, voice := a.voice, speed := a.speed,
                    responseFormat := a.responseFormat,
                    audioBase64 := some (base64Encode (wavEncode (c :: cs).flatten 24000)) },
                state := s', fs := [] } := by
            unfold synthesize
            rw [if_neg hg, hgp]
            dsimp only
            rw [hinf]
            dsimp only
            rw [if_neg (by simp : ¬(((c :: cs) : List (List Int)).isEmpty = true)),
              if_neg (fun hc => hc.2 hfmt), if_pos hfmt]
          rw [hs]
          refine ⟨rfl, fun r hr => ?_⟩
          have hx : Except.ok
              ({ sampleRate := 24000, deviceRequested := sel.requested,
                 deviceUsed := sel.selected, usedFallback := sel.usedFallback,
                 langCode := resolveLang cfg a, voice := a.voice, speed := a.speed,
                 responseFormat := a.responseFormat,
                 audioBase64 := some (base64Encode (wavEncode (c :: cs).flatten 24000)) }
               : SynthResult) = Except.ok r := hr
          injection hx with hx'
          subst hx'
          exact ⟨rfl, base64Encode (wavEncode (c :: cs).flatten 24000), rfl,
            base64Encode_ne_empty _ (wavEncode_ne_nil _ _)⟩

theorem synthesize_base64_no_fs_witness :
    (synthesize envNoAccel {} initState { text := "Hello", responseFormat := "wav_base64" }).fs
      = []
  ∧ ({ sampleRate := 24000, deviceRequested := "auto", deviceUsed := "cpu",
       usedFallback := false, langCode := "a", voice := "af_heart", speed := 1,
       responseFormat := "wav_base64",
       audioBase64 := some (base64Encode (wavEncode [[(1 : Int), 2], [3]].flatten 24000)) }
       : SynthResult).outputPath = none :=
  ⟨(synthesize_base64_no_fs envNoAccel {} initState
      { text := "Hello", responseFormat := "wav_base64" } rfl).1,
   ((synthesize_base64_no_fs envNoAccel {} initState
      { text := "Hello", responseFormat := "wav_base64" } rfl).2 _ rfl).1⟩

end OpenClawKokoro
